import Mathlib

/-!
Verification development for the per-container telemetry collection core of
aptible/cadvisor.  Shallow embedding of `src/manager/container.go` (stats
housekeeping, adaptive housekeeping interval, load-average smoothing,
process-list parsing), of the influxdb2 storage driver
(`src/unnamed/part_001`), and of the docker client's `ConvertibleBool`
(`src/unnamed/part_000`).

Modelling conventions:
- Go errors are modelled by their message strings (`GoError`).
- Go `uint64` values are `Nat`; conversions to signed integers apply the
  explicit `% 2 ^ 64` two's-complement reinterpretation where the source
  performs an integer conversion.
- `time.Time` / `time.Duration` values are modelled as `Nat` (nanoseconds or
  seconds, per use site); the load smoother uses `ℝ` seconds because the
  source computes with `float64` and `math.Exp`.
- Calls into external collaborators (handler, cache, remote sink) are
  modelled by passing their outcomes as explicit inputs.
-/

namespace Cadvisor

/-- Go errors are modelled by their message strings. -/
abbrev GoError := String

/-- `info.ContainerReference`: stable identity of a container. -/
structure ContainerReference where
  Name : String
  Aliases : List String
  Namespace : String
deriving DecidableEq, Inhabited

/-- `info.LoadStats`: task-state counts from taskstats. -/
structure LoadStats where
  NrSleeping : Nat
  NrRunning : Nat
  NrStopped : Nat
  NrUninterruptible : Nat
  NrIoWait : Nat
deriving DecidableEq, Inhabited

/-- `info.CpuUsage`: cumulative CPU usage in nanoseconds. -/
structure CpuUsage where
  Total : Nat
  System : Nat
  User : Nat
  Throttled : Nat
deriving DecidableEq, Inhabited

/-- `info.CpuStats`: CPU usage plus the smoothed milli-load field. -/
structure CpuStats where
  Usage : CpuUsage
  LoadAverage : Int
deriving DecidableEq, Inhabited

/-- `info.MemoryStats` (the fields the embedded code touches). -/
structure MemoryStats where
  Usage : Nat
  RSS : Nat
  WorkingSet : Nat
deriving DecidableEq, Inhabited

/-- `info.PerDiskStats`: per-device counters keyed by operation kind
("Read"/"Write"); the Go `map[string]uint64` is modelled as an association
list (a missing key reads as 0, as in Go). -/
structure PerDiskStats where
  Device : String
  Stats : List (String × Nat)
deriving DecidableEq, Inhabited

/-- `info.DiskIoStats` (the fields the embedded code touches). -/
structure DiskIoStats where
  IoServiceBytes : List PerDiskStats
  IoServiced : List PerDiskStats
deriving DecidableEq, Inhabited

/-- `info.NetworkStats` (the fields the embedded code touches). -/
structure NetworkStats where
  RxBytes : Nat
  RxErrors : Nat
  TxBytes : Nat
  TxErrors : Nat
deriving DecidableEq, Inhabited

/-- `info.FsStats` (the fields the embedded code touches). -/
structure FsStats where
  Device : String
  Usage : Nat
  Limit : Nat
deriving DecidableEq, Inhabited

/-- `info.ContainerStats`: one sample.  Timestamp is nanoseconds.
Custom metrics are modelled shallowly as an association list of metric
name to values. -/
structure ContainerStats where
  Timestamp : Nat
  Cpu : CpuStats
  Memory : MemoryStats
  DiskIo : DiskIoStats
  Network : NetworkStats
  Filesystem : List FsStats
  TaskStats : LoadStats
  CustomMetrics : List (String × Int)
deriving DecidableEq, Inhabited

/-- Modelled from the spec: `info.v1`'s `ContainerStats.StatsEq` is not under
`src/`; spec section 3 defines the equality used for no-change back-off as
"two stats are equal iff every scalar field except timestamp matches".  We
compare every sampled field group except `Timestamp` (custom metrics are not
scalar sample fields and are excluded). -/
def StatsEq (a b : ContainerStats) : Bool :=
  decide (a.Cpu = b.Cpu ∧ a.Memory = b.Memory ∧ a.DiskIo = b.DiskIo ∧
    a.Network = b.Network ∧ a.Filesystem = b.Filesystem ∧
    a.TaskStats = b.TaskStats)

/-! ## Influxdb2 storage driver (`src/unnamed/part_001`) -/

namespace Influx

/-- A `write.Point`: measurement name, tags, integer-valued fields, and an
optional timestamp. -/
structure Point where
  measurement : String
  tags : List (String × String)
  fields : List (String × Int)
  time : Option Nat
deriving DecidableEq, Inhabited

/-- Field name constant `fieldValue`. -/
def fieldValue : String := "value"

/-- Tag name constant `tagContainerId`. -/
def tagContainerId : String := "container_id"

/-- Tag name constant `tagDevice`. -/
def tagDevice : String := "device"

def serCpuUsageTotal : String := "cpu_usage_total"
def serCpuUsageSystem : String := "cpu_usage_system"
def serCpuUsageUser : String := "cpu_usage_user"
def serCpuThrottled : String := "cpu_throttled"
def serLoadAverage : String := "load_average"
def serMemoryUsage : String := "memory_usage"
def serMemoryRSS : String := "memory_rss"
def serRxBytes : String := "rx_bytes"
def serRxErrors : String := "rx_errors"
def serTxBytes : String := "tx_bytes"
def serTxErrors : String := "tx_errors"
def serFsLimit : String := "fs_limit"
def serFsUsage : String := "fs_usage"
def serIoBytes : String := "io_bytes"
def serIoOps : String := "io_ops"

/-- The dynamic value passed to `makePoint` / `toSignedIfUnsigned`: at the
call sites it is either a `uint64` stats counter or the `int32` load
average. -/
inductive GoVal where
  | u64 (n : Nat)
  | i32 (z : Int)
deriving DecidableEq

/-- `toSignedIfUnsigned`: `uint64` values are reinterpreted as `int64`
(two's complement); other values pass through. -/
def toSignedIfUnsigned : GoVal → Int
  | .u64 n =>
      let m : Nat := n % 2 ^ 64
      if m < 2 ^ 63 then (m : Int) else (m : Int) - 2 ^ 64
  | .i32 z => z

/-- `int64(v)` for a `uint64` argument, as used for filesystem usage/limit. -/
def int64OfUint64 (n : Nat) : Int := toSignedIfUnsigned (.u64 n)

/-- `makePoint`: a measurement point with a single `value` field and no
timestamp yet. -/
def makePoint (name : String) (value : GoVal) : Point :=
  { measurement := name
    tags := []
    fields := [(fieldValue, toSignedIfUnsigned value)]
    time := none }

/-- `addTagsToPoint`: add additional tags to the existing tags of a point. -/
def addTagsToPoint (p : Point) (tags : List (String × String)) : Point :=
  { p with tags := p.tags ++ tags }

/-- `tagPoints`: set the container-id tag and the sample timestamp on every
point of the batch. -/
def tagPoints (ref : ContainerReference) (stats : ContainerStats)
    (points : List Point) : List Point :=
  let commonTags := [(tagContainerId, ref.Name)]
  points.map fun p => { addTagsToPoint p commonTags with time := some stats.Timestamp }

/-- Go map read `m["k"]`: missing keys read as 0. -/
def mapGetD (m : List (String × Nat)) (k : String) : Nat :=
  ((m.find? fun kv => kv.1 == k).map Prod.snd).getD 0

/-- `containerStatsToPoints`: the batch of one-value points built from one
stats sample (CPU, load average, memory, disk I/O aggregates, network),
tagged with the container id and timestamped. -/
def containerStatsToPoints (ref : ContainerReference) (stats : ContainerStats) :
    List Point :=
  let points : List Point :=
    [ makePoint serCpuUsageTotal (.u64 stats.Cpu.Usage.Total),
      makePoint serCpuUsageSystem (.u64 stats.Cpu.Usage.System),
      makePoint serCpuUsageUser (.u64 stats.Cpu.Usage.User),
      makePoint serCpuThrottled (.u64 stats.Cpu.Usage.Throttled),
      makePoint serLoadAverage (.i32 stats.Cpu.LoadAverage),
      makePoint serMemoryUsage (.u64 stats.Memory.Usage),
      makePoint serMemoryRSS (.u64 stats.Memory.RSS) ]
  let readBytes := (stats.DiskIo.IoServiceBytes.map fun d => mapGetD d.Stats "Read").sum
  let writeBytes := (stats.DiskIo.IoServiceBytes.map fun d => mapGetD d.Stats "Write").sum
  let readOps := (stats.DiskIo.IoServiced.map fun d => mapGetD d.Stats "Read").sum
  let writeOps := (stats.DiskIo.IoServiced.map fun d => mapGetD d.Stats "Write").sum
  let points := points ++
    [ makePoint serIoBytes (.u64 (readBytes + writeBytes)),
      makePoint serIoOps (.u64 (readOps + writeOps)),
      makePoint serRxBytes (.u64 stats.Network.RxBytes),
      makePoint serRxErrors (.u64 stats.Network.RxErrors),
      makePoint serTxBytes (.u64 stats.Network.TxBytes),
      makePoint serTxErrors (.u64 stats.Network.TxErrors) ]
  tagPoints ref stats points

/-- `containerFilesystemStatsToPoints`: two points (usage, limit) per
filesystem device; empty when the sample has no filesystem stats. -/
def containerFilesystemStatsToPoints (ref : ContainerReference)
    (stats : ContainerStats) : List Point :=
  if stats.Filesystem.length = 0 then []
  else
    let points := (stats.Filesystem.map fun fsStat =>
      [ ({ measurement := serFsUsage
           tags := [(tagDevice, fsStat.Device)]
           fields := [(fieldValue, int64OfUint64 fsStat.Usage)]
           time := some stats.Timestamp } : Point),
        ({ measurement := serFsLimit
           tags := [(tagDevice, fsStat.Device)]
           fields := [(fieldValue, int64OfUint64 fsStat.Limit)]
           time := some stats.Timestamp } : Point) ]).flatten
    tagPoints ref stats points

/-- The sink driver state (`influxdbStorage`): connection identity, flush
policy inputs, and the buffered batch.  Times are `Nat` nanoseconds. -/
structure influxdbStorage where
  machineName : String
  bucket : String
  org : String
  retentionPolicy : String
  bufferDuration : Nat
  lastWrite : Nat
  points : List Point
deriving DecidableEq, Inhabited

/-- `defaultReadyToFlush`: `time.Since(lastWrite) >= bufferDuration`. -/
def defaultReadyToFlush (s : influxdbStorage) (now : Nat) : Bool :=
  decide (s.bufferDuration ≤ now - s.lastWrite)

/-- `AddStats`.  The overridable `readyToFlush` function field is passed as
the `ready` parameter (default `defaultReadyToFlush`); `writeErr` is the
outcome of the remote `WritePoint` call; `now` is the current time.  Returns
the updated driver state and the returned error. -/
def AddStats (s : influxdbStorage) (now : Nat)
    (ready : influxdbStorage → Nat → Bool) (writeErr : Option GoError)
    (ref : ContainerReference) (stats : Option ContainerStats) :
    influxdbStorage × Option GoError :=
  match stats with
  | none => (s, none)
  | some st =>
    let s1 : influxdbStorage :=
      { s with points := s.points ++ containerStatsToPoints ref st }
    let s2 : influxdbStorage :=
      { s1 with points := s1.points ++ containerFilesystemStatsToPoints ref st }
    if ready s2 now then
      let pointsToFlush := s2.points
      let s3 : influxdbStorage := { s2 with points := [], lastWrite := now }
      if pointsToFlush.length > 0 then
        match writeErr with
        | some e => (s3, some ("failed to write stats to influxDb - " ++ e))
        | none => (s3, none)
      else (s3, none)
    else (s2, none)

end Influx

/-! ## ConvertibleBool (`src/unnamed/part_000`) -/

/-- The docker client's `ConvertibleBool` is a named boolean type. -/
abbrev ConvertibleBool := Bool

/-- The body of `ConvertibleBool.UnmarshalJSON` as written: it assigns into
the local receiver variable and returns an error exactly when the input is
none of "1", "true", "0", "false".  The first component is the value of the
local `bit` variable when the body returns. -/
def ConvertibleBool.unmarshalBody (bit : ConvertibleBool) (data : String) :
    ConvertibleBool × Option GoError :=
  if data = "1" ∨ data = "true" then (true, none)
  else if data = "0" ∨ data = "false" then (false, none)
  else (bit, some ("Boolean unmarshal error: invalid input " ++ data))

/-- `ConvertibleBool.UnmarshalJSON` as observed by the caller.  The method
is declared on a value receiver, so the body mutates a copy of the caller's
value: after the call the caller's value is the original `bit`, while the
returned error is the body's return value. -/
def ConvertibleBool.UnmarshalJSON (bit : ConvertibleBool) (data : String) :
    ConvertibleBool × Option GoError :=
  (bit, (ConvertibleBool.unmarshalBody bit data).2)

/-! ## GetInfo copy semantics (`src/manager/container.go` lines 130-147) -/

/-- `info.ContainerSpec` (representative declared-capability fields). -/
structure ContainerSpec where
  CreationTime : Nat
  HasCpu : Bool
  HasMemory : Bool
  HasNetwork : Bool
  HasFilesystem : Bool
  HasDiskIo : Bool
  HasCustomMetrics : Bool
deriving DecidableEq, Inhabited

/-- `containerInfo`: the tracker's info snapshot (reference, sub-containers,
spec). -/
structure containerInfo where
  Ref : ContainerReference
  Subcontainers : List ContainerReference
  Spec : ContainerSpec
deriving DecidableEq, Inhabited

/-- The fragment of `containerData` that `GetInfo` exposes: the `info`
cell. -/
structure containerDataInfoCell where
  info : containerInfo
deriving DecidableEq, Inhabited

/-- A `*containerInfo` value returned to a caller: either the address of the
tracker's own `info` field, or a pointer to a freshly allocated copy. -/
inductive InfoPtr where
  | internal
  | freshCopy (v : containerInfo)
deriving DecidableEq

/-- `GetInfo` (line 146): the source returns `&c.info`, the address of the
tracker's internal `info` field, not a copy. -/
def GetInfo (_c : containerDataInfoCell) : InfoPtr := .internal

/-- Dereference a returned `*containerInfo` against the current tracker
state. -/
def derefInfo (c : containerDataInfoCell) : InfoPtr → containerInfo
  | .internal => c.info
  | .freshCopy v => v

/-- A caller mutating the returned `*containerInfo` (here: overwriting the
whole struct through the pointer), with Go pointer-write semantics: writing
through `&c.info` updates the tracker; writing through a fresh copy does
not. -/
def writeThroughInfoPtr (c : containerDataInfoCell) (p : InfoPtr)
    (v : containerInfo) : containerDataInfoCell :=
  match p with
  | .internal => { c with info := v }
  | .freshCopy _ => c

/-! ## Load-average smoother (`container.go` lines 333-345, 535-555) -/

/-- The smoother state inside `containerData`: `loadAvg` (float64) and
`loadAvgLastProbeTime`.  Times are real-valued seconds; the float64
arithmetic of the source is modelled over ℝ. -/
structure LoadSmootherState where
  loadAvg : ℝ
  loadAvgLastProbeTime : ℝ

/-- The smoother state set up by `newContainerData` (line 340):
`loadAvg: -1.0` ("negative value indicates uninitialized"); the zero-value
probe time is 0. -/
noncomputable def initialLoadState : LoadSmootherState :=
  { loadAvg := -1, loadAvgLastProbeTime := 0 }

open scoped Classical in
/-- `updateLoadAvg` (lines 535-548): smoothed load average from a new
task-stat sample. -/
noncomputable def updateLoadAvg (c : LoadSmootherState) (probeTime : ℝ)
    (ts : LoadStats) : LoadSmootherState :=
  let newLoad : Nat := ts.NrRunning + ts.NrUninterruptible + ts.NrIoWait
  if c.loadAvg < 0 then
    { loadAvg := (newLoad : ℝ), loadAvgLastProbeTime := probeTime }
  else
    let loadDecay : ℝ := Real.exp (-((probeTime - c.loadAvgLastProbeTime) / 10))
    { loadAvg := (newLoad : ℝ) * (1 - loadDecay) + c.loadAvg * loadDecay
      loadAvgLastProbeTime := probeTime }

/-- `LoadAvg` (lines 550-555): snapshot read of the smoothed average. -/
def LoadAvg (c : LoadSmootherState) : ℝ := c.loadAvg

/-- The raw load of a sample per the spec: running + uninterruptible +
iowait. -/
def rawLoad (ts : LoadStats) : Nat :=
  ts.NrRunning + ts.NrUninterruptible + ts.NrIoWait

/-- The spec's decay factor: `decay = exp(-dt/10)`. -/
noncomputable def specDecay (dt : ℝ) : ℝ := Real.exp (-(dt / 10))

/-! ## Housekeeping stats update (`container.go` lines 621-692) -/

/-- `fmt.Errorf("%v, continuing to push stats", statsErr)`. -/
def annotateStatsErr (e : GoError) : GoError := e ++ ", continuing to push stats"

/-- `fmt.Errorf("%v, continuing to push custom stats", customStatsErr)`. -/
def annotateCustomErr (e : GoError) : GoError :=
  e ++ ", continuing to push custom stats"

/-- The outcomes of the external calls one `updateStats` iteration makes,
passed in explicitly: the handler's `GetStats` result (Go can return both a
non-nil stats value and a non-nil error), the handler's `Exists()` answer
(assumed stable across the iteration), the `ContainerReference()` result,
the snapshots read through `LoadAvg()` and `TaskStats()`, the collector
manager configuration and `Collect()` result, and the memory cache's
`AddStats` result. -/
structure HandlerOutcome where
  getStatsResult : Option ContainerStats × Option GoError
  containerExists : Bool
  containerReferenceResult : Except GoError ContainerReference
  loadSnapshot : ℚ
  taskStatsSnapshot : LoadStats
  collectorsPresent : Bool
  collectionDue : Bool
  collectResult : Option (List (String × Int)) × Option GoError
  addStatsErr : Option GoError

/-- `updateCustomStats` (lines 683-692): collector errors are swallowed when
the container no longer exists, otherwise annotated; the collected values
are returned either way. -/
def updateCustomStats (h : HandlerOutcome) :
    Option (List (String × Int)) × Option GoError :=
  match h.collectResult with
  | (customStats, some e) =>
      if ¬ h.containerExists then (customStats, none)
      else (customStats, some (annotateCustomErr e))
  | (customStats, none) => (customStats, none)

/-- Lines 635-639: `if load >= 0 { stats.Cpu.LoadAverage = int32(load * 1000) }`.
Go's `int32(...)` conversion truncates toward zero; under the `load >= 0`
guard this is `⌊load * 1000⌋` (int32 wraparound outside the 32-bit range is
unspecified in Go and not modelled). -/
def applyLoadAvg (load : ℚ) (stats : ContainerStats) : ContainerStats :=
  if 0 ≤ load then
    { stats with Cpu := { stats.Cpu with LoadAverage := ⌊load * 1000⌋ } }
  else stats

/-- Lines 635-663: enrich the fetched sample with the load snapshot, the
cached task stats (the `&taskStats != nil` guard is always true), and — when
collectors are registered and due — the custom metrics; summary-reader
errors are logged and discarded, with no effect on the sample.  Returns the
enriched sample and the custom-stats error. -/
def enrichStats (h : HandlerOutcome) (stats0 : ContainerStats) :
    ContainerStats × Option GoError :=
  let stats1 := applyLoadAvg h.loadSnapshot stats0
  let stats2 := { stats1 with TaskStats := h.taskStatsSnapshot }
  if h.collectorsPresent ∧ h.collectionDue then
    match updateCustomStats h with
    | (some cs, e) => ({ stats2 with CustomMetrics := cs }, e)
    | (none, e) => (stats2, e)
  else (stats2, none)

/-- `updateStats` (lines 621-681).  The first component is the list of
`memoryCache.AddStats` calls the iteration makes (the samples pushed into
the cache); the second is the iteration's returned error. -/
def updateStats (h : HandlerOutcome) :
    List (ContainerReference × ContainerStats) × Option GoError :=
  match h.getStatsResult with
  | (stats0, statsErr0) =>
    if statsErr0.isSome ∧ ¬ h.containerExists then ([], none)
    else
      let statsErr : Option GoError := statsErr0.map annotateStatsErr
      match stats0 with
      | none => ([], statsErr)
      | some st =>
        match enrichStats h st with
        | (stats3, customStatsErr) =>
          match h.containerReferenceResult with
          | .error e => if ¬ h.containerExists then ([], none) else ([], some e)
          | .ok ref =>
            match h.addStatsErr with
            | some e => ([(ref, stats3)], some e)
            | none =>
              if statsErr.isSome then ([(ref, stats3)], statsErr)
              else ([(ref, stats3)], customStatsErr)

/-- `doWithTimeout` (lines 488-493): the housekeeping goroutine logs only
when the work function returned a non-nil error (and the per-tracker rate
limiter `allowErrorLogging` permits it). -/
def housekeepingLogsError (result : Option GoError) (allowLogging : Bool) : Bool :=
  result.isSome && allowLogging

/-! ## Adaptive housekeeping interval (`container.go` lines 98-104, 373-397) -/

/-- `DurationMin` (lines 98-104). -/
def DurationMin (d1 d2 : Nat) : Nat := if d1 < d2 then d1 else d2

/-- The housekeeping-interval state inside `containerData`: the current
interval, the per-tracker ceiling `maxHousekeepingInterval`, and the
`allowDynamicHousekeeping` switch (lines 336-338).  Durations are `Nat`
nanoseconds. -/
structure HousekeepingState where
  housekeepingInterval : Nat
  maxHousekeepingInterval : Nat
  allowDynamicHousekeeping : Bool
deriving DecidableEq, Inhabited

/-- `adjustHousekeepingInterval` (lines 373-397).  `baseline` is the
`*HousekeepingInterval` flag value; `recent` is the outcome of
`memoryCache.RecentStats(name, empty, empty, 2)` (newest first).  Returns
the updated state and the returned error. -/
def adjustHousekeepingInterval (baseline : Nat)
    (recent : Except GoError (List ContainerStats)) (c : HousekeepingState) :
    HousekeepingState × Option GoError :=
  if ¬ c.allowDynamicHousekeeping then (c, none)
  else
    match recent with
    | .error e => (c, some e)
    | .ok stats =>
      if stats.length < 2 then (c, none)
      else if StatsEq (stats.getD 0 default) (stats.getD 1 default) then
        ({ c with housekeepingInterval :=
            DurationMin (c.housekeepingInterval * 2) c.maxHousekeepingInterval },
          none)
      else ({ c with housekeepingInterval := baseline }, none)

/-- The interval state after a sequence of housekeeping iterations whose
`RecentStats` outcomes are `recents`, in order. -/
def adjustRun (baseline : Nat)
    (recents : List (Except GoError (List ContainerStats)))
    (c : HousekeepingState) : HousekeepingState :=
  recents.foldl (fun s r => (adjustHousekeepingInterval baseline r s).1) c

/-- A `RecentStats` outcome that signals "no change": at least two cached
samples and the two most recent are field-equal. -/
def noChangeSignal : Except GoError (List ContainerStats) → Bool
  | .ok (s0 :: s1 :: _) => StatsEq s0 s1
  | _ => false

theorem DurationMin_eq_min (d1 d2 : Nat) : DurationMin d1 d2 = min d1 d2 := by
  rw [DurationMin, Nat.min_def]
  split <;> split <;> omega

theorem adjust_noChange_step (baseline : Nat)
    (r : Except GoError (List ContainerStats)) (hr : noChangeSignal r = true)
    (x c : Nat) :
    (adjustHousekeepingInterval baseline r ⟨x, c, true⟩).1 =
      ⟨min (x * 2) c, c, true⟩ := by
  match r with
  | .error e => simp [noChangeSignal] at hr
  | .ok [] => simp [noChangeSignal] at hr
  | .ok [s] => simp [noChangeSignal] at hr
  | .ok (s0 :: s1 :: rest) =>
    rw [noChangeSignal] at hr
    simp [adjustHousekeepingInterval, hr, DurationMin_eq_min]
    rw [if_neg (by omega)]

theorem min_double_pow (x c k : Nat) :
    min (min (x * 2) c * 2 ^ k) c = min (x * 2 ^ (k + 1)) c := by
  have h2k : (1 : Nat) ≤ 2 ^ k := Nat.one_le_two_pow
  rcases le_total (x * 2) c with h | h
  · rw [min_eq_left h]
    congr 1
    ring
  · have hc1 : c ≤ c * 2 ^ k := le_mul_of_one_le_right (Nat.zero_le c) h2k
    have hc2 : c ≤ x * 2 ^ (k + 1) := by
      calc c ≤ x * 2 := h
        _ ≤ x * 2 * 2 ^ k := le_mul_of_one_le_right (Nat.zero_le _) h2k
        _ = x * 2 ^ (k + 1) := by ring
    rw [min_eq_right h, min_eq_right hc1, min_eq_right hc2]

theorem adjustRun_noChange (baseline ceiling : Nat)
    (recents : List (Except GoError (List ContainerStats)))
    (hall : ∀ r ∈ recents, noChangeSignal r = true) :
    ∀ x, x ≤ ceiling →
      adjustRun baseline recents ⟨x, ceiling, true⟩ =
        ⟨min (x * 2 ^ recents.length) ceiling, ceiling, true⟩ := by
  induction recents with
  | nil =>
    intro x hx
    simp only [adjustRun, List.foldl_nil, List.length_nil, pow_zero, Nat.mul_one]
    rw [min_eq_left hx]
  | cons r rs ih =>
    intro x hx
    have hr := hall r (List.mem_cons_self _ _)
    have hrs : ∀ r' ∈ rs, noChangeSignal r' = true := fun r' h' =>
      hall r' (List.mem_cons_of_mem _ h')
    have step := adjust_noChange_step baseline r hr x ceiling
    calc adjustRun baseline (r :: rs) ⟨x, ceiling, true⟩
        = adjustRun baseline rs
            ((adjustHousekeepingInterval baseline r ⟨x, ceiling, true⟩).1) := rfl
      _ = adjustRun baseline rs ⟨min (x * 2) ceiling, ceiling, true⟩ := by rw [step]
      _ = ⟨min (min (x * 2) ceiling * 2 ^ rs.length) ceiling, ceiling, true⟩ :=
          ih hrs _ (min_le_right _ _)
      _ = ⟨min (x * 2 ^ (rs.length + 1)) ceiling, ceiling, true⟩ := by
          rw [min_double_pow]
      _ = ⟨min (x * 2 ^ (r :: rs).length) ceiling, ceiling, true⟩ := by
          rw [List.length_cons]

/-! ## Process listing (`container.go` lines 55, 156-167, 240-319) -/

/-- The whitespace class used by `strings.Fields` (the ASCII portion of
`unicode.IsSpace`; `ps` output is ASCII). -/
def isSpaceChar (c : Char) : Bool :=
  (c == ' ') || (c == '\t') || (c == '\n') || (c == '\r') ||
    (c == '\x0b') || (c == '\x0c')

/-- `strings.Split(s, "\n")` on the character list. -/
def splitOnNewline : List Char → List (List Char)
  | [] => [[]]
  | c :: rest =>
    match splitOnNewline rest with
    | [] => [[]]
    | g :: gs => if c = '\n' then [] :: g :: gs else (c :: g) :: gs

/-- Accumulator loop for `strings.Fields`. -/
def fieldsAux (cur : List Char) : List Char → List (List Char)
  | [] => if cur.isEmpty then [] else [cur.reverse]
  | c :: rest =>
    if isSpaceChar c then
      if cur.isEmpty then fieldsAux [] rest else cur.reverse :: fieldsAux [] rest
    else fieldsAux (c :: cur) rest

/-- `strings.Fields`: the maximal whitespace-free substrings. -/
def Fields (s : String) : List String :=
  (fieldsAux [] s.data).map fun l => String.mk l

/-- Decimal digit-string value accumulator; fails on a non-digit. -/
def digitsVal : List Char → Nat → Option Nat
  | [], acc => some acc
  | c :: rest, acc =>
    if c.isDigit then digitsVal rest (acc * 10 + (c.toNat - '0'.toNat))
    else none

/-- A nonempty all-digit string's value. -/
def parseDigits (l : List Char) : Option Nat :=
  if l.isEmpty then none else digitsVal l 0

/-- `strconv.Atoi`: optional sign then decimal digits (the 64-bit overflow
check is not modelled; pids are far below the bound). -/
def Atoi (s : String) : Option Int :=
  match s.data with
  | '+' :: rest => (parseDigits rest).map fun n => (n : Int)
  | '-' :: rest => (parseDigits rest).map fun n => -(n : Int)
  | ds => (parseDigits ds).map fun n => (n : Int)

/-- `strconv.ParseUint(s, 0, 64)` restricted to the plain decimal numerals
`ps` emits: no sign, and either "0" or a string of digits not starting
with 0.  Go's base-0 prefix forms (0x/0o/0b, leading-zero octal, digit
underscores) are excluded from the well-formedness predicate rather than
modelled; on every accepted string Go returns the same value. -/
def ParseUintDec (s : String) : Option Nat :=
  match s.data with
  | [] => none
  | ['0'] => some 0
  | c :: _ => if c = '0' then none else parseDigits s.data

/-- The unsigned part of a plain decimal float `digits [. digits*]`. -/
def ParseFloatDecCore (l : List Char) : Option ℚ :=
  match (l.takeWhile fun c => c ≠ '.', l.dropWhile fun c => c ≠ '.') with
  | (intPart, []) => (parseDigits intPart).map fun n => (n : ℚ)
  | (intPart, _dot :: fracPart) =>
    match parseDigits intPart with
    | none => none
    | some n =>
      if fracPart.all Char.isDigit then
        some ((n : ℚ) + ((digitsVal fracPart 0).getD 0 : ℚ) / 10 ^ fracPart.length)
      else none

/-- `strconv.ParseFloat(s, 32)` restricted to the plain decimal notation
`[sign] digits [. digits*]` that `ps` emits for pcpu/pmem, valued in ℚ
(the rounding to float32 is not modelled; no claim depends on these
fields). -/
def ParseFloatDec (s : String) : Option ℚ :=
  match s.data with
  | '+' :: rest => ParseFloatDecCore rest
  | '-' :: rest => (ParseFloatDecCore rest).map Neg.neg
  | ds => ParseFloatDecCore ds

/-- The lazy capture `(.*?)[,;$]` of `cgroupPathRegExp`: the characters
before the first terminator `,` / `;` / `$` (inside a character class the
dollar is a literal character, not an anchor), or `none` when no
terminator follows. -/
def takeUntilTerm : List Char → Option (List Char)
  | [] => none
  | c :: rest =>
    if c = ',' ∨ c = ';' ∨ c = '$' then some []
    else (takeUntilTerm rest).map fun l => c :: l

/-- `[^:]*:` after the literal `devices`: the run of non-colon characters
can only end at the first colon, so this returns the suffix after the
first colon, or `none` when there is no colon. -/
def afterFirstColon : List Char → Option (List Char)
  | [] => none
  | c :: rest => if c = ':' then some rest else afterFirstColon rest

/-- Attempt to match `devices[^:]*:(.*?)[,;$]` starting at this exact
position, returning the capture group. -/
def matchDevicesAt (l : List Char) : Option (List Char) :=
  if "devices".data.isPrefixOf l then
    match afterFirstColon (l.drop 7) with
    | none => none
    | some rest => takeUntilTerm rest
  else none

/-- Leftmost match of `cgroupPathRegExp` over the string (re2 returns the
match with the leftmost starting position; the lazy group takes the
shortest capture). -/
def findCgroupSubmatch : List Char → Option (List Char)
  | [] => none
  | c :: rest =>
    match matchDevicesAt (c :: rest) with
    | some cap => some cap
    | none => findCgroupSubmatch rest

/-- `getCgroupPath` (lines 156-167): "-" and a failed regex match both map
to the root "/" (the devices hierarchy may be absent); the source's error
return is always nil and is omitted. -/
def getCgroupPath (cgroups : String) : String :=
  if cgroups = "-" then "/"
  else
    match findCgroupSubmatch cgroups.data with
    | none => "/"
    | some cap => String.mk cap

/-- `v2.ProcessInfo` (every field `GetProcessList` populates). -/
structure ProcessInfo where
  User : String
  Pid : Int
  Ppid : Int
  StartTime : String
  PercentCpu : ℚ
  PercentMemory : ℚ
  RSS : Nat
  VirtualSize : Nat
  Status : String
  RunningTime : String
  Cmd : String
  CgroupPath : String
deriving DecidableEq, Inhabited

/-- One non-header line of `ps` output, as the body of `GetProcessList`'s
loop handles it: skip empty lines, reject lines with fewer than 12 fields,
parse the numeric columns (each failure is an error), skip the agent's own
`ps` row when not in the host namespace, keep the row when the tracker is
root or the parsed cgroup equals the tracker name, and convert RSS and VSZ
from KiB to bytes. -/
def processLine (name cadvisorContainer : String) (inHostNamespace : Bool)
    (line : String) : Except GoError (Option ProcessInfo) :=
  let isRoot := name = "/"
  if line = "" then .ok none
  else
    let fields := Fields line
    if fields.length < 12 then .error "expected at least 12 fields"
    else
      match Atoi (fields.getD 1 "") with
      | none => .error ("invalid pid " ++ fields.getD 1 "")
      | some pid =>
        match Atoi (fields.getD 2 "") with
        | none => .error ("invalid ppid " ++ fields.getD 2 "")
        | some ppid =>
          match ParseFloatDec (fields.getD 4 "") with
          | none => .error ("invalid cpu percent " ++ fields.getD 4 "")
          | some percentCpu =>
            match ParseFloatDec (fields.getD 5 "") with
            | none => .error ("invalid memory percent " ++ fields.getD 5 "")
            | some percentMem =>
              match ParseUintDec (fields.getD 6 "") with
              | none => .error ("invalid rss " ++ fields.getD 6 "")
              | some rss =>
                match ParseUintDec (fields.getD 7 "") with
                | none => .error ("invalid virtual size " ++ fields.getD 7 "")
                | some vs =>
                  let rss := rss * 1024
                  let vs := vs * 1024
                  let cgroup := getCgroupPath (fields.getD 11 "")
                  if ¬ inHostNamespace ∧ cadvisorContainer = cgroup ∧
                      fields.getD 10 "" = "ps" then .ok none
                  else
                    let cgroupPath := if isRoot then cgroup else ""
                    if isRoot ∨ name = cgroup then
                      .ok (some
                        { User := fields.getD 0 ""
                          Pid := pid
                          Ppid := ppid
                          StartTime := fields.getD 3 ""
                          PercentCpu := percentCpu
                          PercentMemory := percentMem
                          RSS := rss
                          VirtualSize := vs
                          Status := fields.getD 8 ""
                          RunningTime := fields.getD 9 ""
                          Cmd := fields.getD 10 ""
                          CgroupPath := cgroupPath })
                    else .ok none

/-- The loop of `GetProcessList` over the body lines: append the kept
entries in order, aborting on the first error. -/
def collectRows (name cadvisorContainer : String) (inHostNamespace : Bool) :
    List String → Except GoError (List ProcessInfo)
  | [] => .ok []
  | l :: ls =>
    match processLine name cadvisorContainer inHostNamespace l with
    | .error e => .error e
    | .ok none => collectRows name cadvisorContainer inHostNamespace ls
    | .ok (some p) =>
      match collectRows name cadvisorContainer inHostNamespace ls with
      | .error e => .error e
      | .ok ps => .ok (p :: ps)

/-- `GetProcessList` (lines 240-319) applied to the captured `ps` output
`out` (the result of `getPsOutput`; the process execution itself is
outside the model): split into lines, drop the header, process each body
line. -/
def GetProcessList (name cadvisorContainer : String) (inHostNamespace : Bool)
    (out : String) : Except GoError (List ProcessInfo) :=
  collectRows name cadvisorContainer inHostNamespace
    (((splitOnNewline out.data).map fun l => String.mk l).drop 1)

/-- The claim's row selection: a non-empty body row is kept unless it is
the agent's own `ps` invocation seen from inside the agent's container,
and only when the tracker is root ("/") or the row's parsed cgroup equals
the tracker name. -/
def specRowSelected (name cadvisorContainer : String) (inHostNamespace : Bool)
    (line : String) : Bool :=
  let fields := Fields line
  let cgroup := getCgroupPath (fields.getD 11 "")
  (line != "") &&
    !(!inHostNamespace && (cadvisorContainer == cgroup) &&
        (fields.getD 10 "" == "ps")) &&
    ((name == "/") || (name == cgroup))

/-- The claim's entry for a kept row: the parsed columns, RSS and VSZ
multiplied by 1024 (KiB to bytes), and the cgroup path populated only for
the root tracker. -/
def specRowEntry (name : String) (line : String) : ProcessInfo :=
  let fields := Fields line
  let cgroup := getCgroupPath (fields.getD 11 "")
  { User := fields.getD 0 ""
    Pid := (Atoi (fields.getD 1 "")).getD 0
    Ppid := (Atoi (fields.getD 2 "")).getD 0
    StartTime := fields.getD 3 ""
    PercentCpu := (ParseFloatDec (fields.getD 4 "")).getD 0
    PercentMemory := (ParseFloatDec (fields.getD 5 "")).getD 0
    RSS := 1024 * (ParseUintDec (fields.getD 6 "")).getD 0
    VirtualSize := 1024 * (ParseUintDec (fields.getD 7 "")).getD 0
    Status := fields.getD 8 ""
    RunningTime := fields.getD 9 ""
    Cmd := fields.getD 10 ""
    CgroupPath := if name = "/" then cgroup else "" }

/-- A body line is well formed when it is empty (it is skipped) or has at
least 12 whitespace-separated fields whose numeric columns parse. -/
def wellFormedLine (line : String) : Bool :=
  (line == "") ||
    (let fields := Fields line
     decide (12 ≤ fields.length) &&
       (Atoi (fields.getD 1 "")).isSome && (Atoi (fields.getD 2 "")).isSome &&
       (ParseFloatDec (fields.getD 4 "")).isSome &&
       (ParseFloatDec (fields.getD 5 "")).isSome &&
       (ParseUintDec (fields.getD 6 "")).isSome &&
       (ParseUintDec (fields.getD 7 "")).isSome)

/-- Well-formed `ps` output: every body line is well formed. -/
def wellFormedPsOutput (out : String) : Bool :=
  ((((splitOnNewline out.data).map fun l => String.mk l).drop 1).all
    wellFormedLine)

/-! ## Claim theorems (first group) -/

/-- C10: calling the influxdb2 sink's `AddStats` with a nil stats pointer
returns nil and leaves the sink state (buffered points, last-write time and
everything else) completely unchanged, for every container reference, clock
reading, flush predicate and remote-write outcome. -/
theorem Influx.addStats_nil_stats_noop (s : Influx.influxdbStorage) (now : Nat)
    (ready : Influx.influxdbStorage → Nat → Bool) (writeErr : Option GoError)
    (ref : ContainerReference) :
    Influx.AddStats s now ready writeErr ref none = (s, none) := rfl

/-- C9 (code bug): on input "true" with the receiver initially false,
`ConvertibleBool.UnmarshalJSON` returns no error but leaves the
caller-visible receiver false — the assignment inside the body targets the
value-receiver copy, so the claimed "sets the receiver to true" does not
happen (while the body's local variable does become true). -/
theorem ConvertibleBool.unmarshal_value_receiver_noop :
    ConvertibleBool.UnmarshalJSON false "true" = (false, none) ∧
    (ConvertibleBool.unmarshalBody false "true").1 = true ∧
    (ConvertibleBool.UnmarshalJSON false "zzz").2 =
      some "Boolean unmarshal error: invalid input zzz" := by
  refine ⟨rfl, rfl, rfl⟩

/-- C7 (code bug): `GetInfo` returns `&c.info` — the address of the
tracker's internal info — so mutating the returned value changes the
tracker's state, contradicting the claim (and the source's own comment
"Make a copy of the info for the user").  Evaluated at a concrete tracker
and a concrete overwrite. -/
theorem getInfo_alias_mutation :
    (writeThroughInfoPtr
        ⟨⟨⟨"/docker/abc", [], "docker"⟩, [], default⟩⟩
        (GetInfo ⟨⟨⟨"/docker/abc", [], "docker"⟩, [], default⟩⟩)
        ⟨⟨"/mutated", [], "docker"⟩, [], default⟩).info ≠
      (⟨⟨⟨"/docker/abc", [], "docker"⟩, [], default⟩⟩ :
        containerDataInfoCell).info := by
  decide

/-- C4: `load_average()` is exactly -1 on the freshly constructed tracker
(no observe completed), and after the first `observe(probe_time, sample)`
it is the raw sum running + uninterruptible + iowait, hence nonnegative —
so `load_average >= 0` holds exactly once a load-probe iteration has
completed. -/
theorem loadAvg_initial_and_first_observe :
    LoadAvg initialLoadState = -1 ∧
    ∀ (t : ℝ) (ts : LoadStats),
      LoadAvg (updateLoadAvg initialLoadState t ts) = (rawLoad ts : ℝ) ∧
      0 ≤ LoadAvg (updateLoadAvg initialLoadState t ts) := by
  have h : initialLoadState.loadAvg < 0 := by norm_num [initialLoadState]
  refine ⟨rfl, fun t ts => ?_⟩
  have e : updateLoadAvg initialLoadState t ts =
      { loadAvg := ((ts.NrRunning + ts.NrUninterruptible + ts.NrIoWait : Nat) : ℝ)
        loadAvgLastProbeTime := t } := by
    rw [updateLoadAvg, if_pos h]
  rw [e]
  exact ⟨rfl, Nat.cast_nonneg _⟩

/-- C5: on an already-initialised smoother (avg ≥ 0), `observe` replaces the
average by `raw·(1 − decay) + avg·decay` with `decay = exp(−dt/10)`,
`dt = probe_time − last_probe`, and records `last_probe = probe_time`. -/
theorem updateLoadAvg_ema_formula (c : LoadSmootherState) (t : ℝ)
    (ts : LoadStats) (h : 0 ≤ c.loadAvg) :
    updateLoadAvg c t ts =
      { loadAvg := (rawLoad ts : ℝ) *
            (1 - specDecay (t - c.loadAvgLastProbeTime)) +
          c.loadAvg * specDecay (t - c.loadAvgLastProbeTime)
        loadAvgLastProbeTime := t } := by
  rw [updateLoadAvg, if_neg (not_lt.mpr h)]
  rfl

/-- Witness for C5 at a concrete input (the spec's smoother-bootstrap
scenario, second step): state avg = 3 at time 0, sample with 5 running
tasks observed at t = 10. -/
theorem updateLoadAvg_ema_formula_witness :
    updateLoadAvg ⟨3, 0⟩ 10 ⟨0, 5, 0, 0, 0⟩ =
      { loadAvg := (rawLoad ⟨0, 5, 0, 0, 0⟩ : ℝ) *
            (1 - specDecay (10 - (⟨3, 0⟩ : LoadSmootherState).loadAvgLastProbeTime)) +
          (⟨3, 0⟩ : LoadSmootherState).loadAvg *
            specDecay (10 - (⟨3, 0⟩ : LoadSmootherState).loadAvgLastProbeTime)
        loadAvgLastProbeTime := 10 } :=
  updateLoadAvg_ema_formula ⟨3, 0⟩ 10 ⟨0, 5, 0, 0, 0⟩
    (by show (0 : ℝ) ≤ 3; norm_num)

/-- C2: when `GetStats` returns an error and the handler reports
`exists() = false`, `updateStats` makes no cache push and returns nil, so
the housekeeping goroutine logs nothing for this iteration. -/
theorem updateStats_dead_container_silent (h : HandlerOutcome)
    (h1 : (h.getStatsResult).2.isSome = true)
    (h2 : h.containerExists = false) :
    updateStats h = ([], none) ∧
    ∀ b : Bool, housekeepingLogsError (updateStats h).2 b = false := by
  have key : updateStats h = ([], none) := by
    rcases hp : h.getStatsResult with ⟨sp, se⟩
    rw [hp] at h1
    rw [updateStats, hp]
    simp only [] at h1
    simp [h1, h2]
  exact ⟨key, fun b => by rw [key]; rfl⟩

/-- Handler outcome of the spec's dead-container scenario: `GetStats`
returns `(nil, some-error)` and `exists()` is false. -/
def deadHandler : HandlerOutcome :=
  { getStatsResult := (none, some "boom")
    containerExists := false
    containerReferenceResult := .ok default
    loadSnapshot := 0
    taskStatsSnapshot := default
    collectorsPresent := false
    collectionDue := false
    collectResult := (none, none)
    addStatsErr := none }

/-- Witness for C2 at the concrete dead-container handler. -/
theorem updateStats_dead_container_silent_witness :
    updateStats deadHandler = ([], none) ∧
    ∀ b : Bool, housekeepingLogsError (updateStats deadHandler).2 b = false :=
  updateStats_dead_container_silent deadHandler rfl rfl

/-- C3: when `GetStats` returns a non-nil sample together with a non-nil
error while the handler still exists, and the reference lookup and cache
add succeed, `updateStats` pushes the (enriched) partial sample into the
cache and returns the annotated stats error. -/
theorem updateStats_partial_stats_pushed (h : HandlerOutcome)
    (st : ContainerStats) (e : GoError) (ref : ContainerReference)
    (h1 : h.getStatsResult = (some st, some e))
    (h2 : h.containerExists = true)
    (h3 : h.containerReferenceResult = .ok ref)
    (h4 : h.addStatsErr = none) :
    updateStats h = ([(ref, (enrichStats h st).1)], some (annotateStatsErr e)) := by
  rw [updateStats, h1]
  rcases henr : enrichStats h st with ⟨st3, ce⟩
  rw [h3, h4]
  simp [h2, henr]

/-- Handler outcome of the partial-stats scenario: a sample and an error at
once, live container, working cache. -/
def partialHandler : HandlerOutcome :=
  { getStatsResult := (some default, some "boom")
    containerExists := true
    containerReferenceResult := .ok ⟨"/c", [], ""⟩
    loadSnapshot := 0
    taskStatsSnapshot := default
    collectorsPresent := false
    collectionDue := false
    collectResult := (none, none)
    addStatsErr := none }

/-- Witness for C3 at the concrete partial-stats handler. -/
theorem updateStats_partial_stats_pushed_witness :
    updateStats partialHandler =
      ([(⟨"/c", [], ""⟩, (enrichStats partialHandler default).1)],
        some (annotateStatsErr "boom")) :=
  updateStats_partial_stats_pushed partialHandler default "boom"
    ⟨"/c", [], ""⟩ rfl rfl rfl rfl

/-- Handler outcome exercising the milli-load conversion with
`load = 513/1024` (exactly representable in binary, milli-load fractional
part above one half). -/
def milliloadHandler : HandlerOutcome :=
  { getStatsResult := (some default, none)
    containerExists := true
    containerReferenceResult := .ok default
    loadSnapshot := 513 / 1024
    taskStatsSnapshot := default
    collectorsPresent := false
    collectionDue := false
    collectResult := (none, none)
    addStatsErr := none }

/-- C6 counterexample: with smoothed load 513/1024 (milli-load 500.9765625)
the pushed sample carries `LoadAverage = 500` — `int32(load*1000)`
truncates — while rounding `load × 1000` to the nearest integer gives 501,
so the claim's `round(load * 1000)` is false as stated. -/
theorem updateStats_milliload_round_counterexample :
    ((updateStats milliloadHandler).1.map fun p => p.2.Cpu.LoadAverage) ≠
      [round ((513 / 1024 : ℚ) * 1000)] := by
  have hload : (0 : ℚ) ≤ 513 / 1024 := by norm_num
  have hfloor : (⌊(513 / 1024 : ℚ) * 1000⌋ : Int) = 500 := by norm_num
  have hround : (round ((513 / 1024 : ℚ) * 1000) : Int) = 501 := by
    rw [round_eq]; norm_num
  have hupd : ((updateStats milliloadHandler).1.map fun p => p.2.Cpu.LoadAverage) =
      [⌊(513 / 1024 : ℚ) * 1000⌋] := by
    simp [updateStats, milliloadHandler, enrichStats, updateCustomStats,
      applyLoadAvg, hload]
  rw [hupd, hfloor, hround]
  decide

/-- C6 as amended: when the smoothed load read is ≥ 0 the sample's
`Cpu.LoadAverage` is set to `⌊load * 1000⌋` (truncation of the milli-load,
as `int32(load * 1000)` computes for nonnegative load), and when the load
is negative the sample is left unchanged. -/
theorem applyLoadAvg_truncates_milliload (load : ℚ) (stats : ContainerStats) :
    (0 ≤ load →
      applyLoadAvg load stats =
        { stats with Cpu := { stats.Cpu with LoadAverage := ⌊load * 1000⌋ } }) ∧
    (load < 0 → applyLoadAvg load stats = stats) := by
  constructor
  · intro h; rw [applyLoadAvg, if_pos h]
  · intro h; rw [applyLoadAvg, if_neg (not_le.mpr h)]

/-- Witness for the amended C6 at concrete loads 513/1024 and -1. -/
theorem applyLoadAvg_truncates_milliload_witness :
    applyLoadAvg (513 / 1024) default =
      { (default : ContainerStats) with
        Cpu := { (default : ContainerStats).Cpu with
          LoadAverage := ⌊(513 / 1024 : ℚ) * 1000⌋ } } ∧
    applyLoadAvg (-1) default = default :=
  ⟨(applyLoadAvg_truncates_milliload (513 / 1024) default).1 (by norm_num),
   (applyLoadAvg_truncates_milliload (-1) default).2 (by norm_num)⟩

/-- C1: with dynamic housekeeping enabled and a baseline no larger than the
ceiling, N consecutive iterations whose two most recent cached samples are
field-equal drive the interval from the baseline to exactly
`min(baseline · 2^N, ceiling)`, and any single iteration whose two most
recent cached samples differ resets the interval, from any current value,
to exactly the baseline. -/
theorem adjustHousekeepingInterval_backoff_reset (baseline ceiling : Nat)
    (hbc : baseline ≤ ceiling) :
    (∀ recents : List (Except GoError (List ContainerStats)),
      (∀ r ∈ recents, noChangeSignal r = true) →
      adjustRun baseline recents ⟨baseline, ceiling, true⟩ =
        ⟨min (baseline * 2 ^ recents.length) ceiling, ceiling, true⟩) ∧
    (∀ (cur : Nat) (s0 s1 : ContainerStats) (rest : List ContainerStats),
      StatsEq s0 s1 = false →
      (adjustHousekeepingInterval baseline (.ok (s0 :: s1 :: rest))
          ⟨cur, ceiling, true⟩).1.housekeepingInterval = baseline) := by
  constructor
  · intro recents hall
    exact adjustRun_noChange baseline ceiling recents hall baseline hbc
  · intro cur s0 s1 rest hne
    simp [adjustHousekeepingInterval, hne]
    rw [if_neg (by omega)]

/-- A concrete stats sample (all counters zero). -/
def statsSampleA : ContainerStats := default

/-- A concrete stats sample differing from `statsSampleA` in a scalar
field. -/
def statsSampleB : ContainerStats :=
  { (default : ContainerStats) with
    Memory := { Usage := 1, RSS := 0, WorkingSet := 0 } }

/-- Witness for C1: the spec's adaptive back-off scenario (baseline 1,
ceiling 8) — four no-change iterations reach min(1·2⁴, 8) = 8, and one
differing iteration resets a current interval of 5 to the baseline 1. -/
theorem adjustHousekeepingInterval_backoff_reset_witness :
    (adjustRun 1
        (List.replicate 4 (Except.ok [statsSampleA, statsSampleA]))
        ⟨1, 8, true⟩ =
      ⟨min (1 * 2 ^ (List.replicate 4
          ((Except.ok [statsSampleA, statsSampleA]) :
            Except GoError (List ContainerStats))).length) 8, 8, true⟩) ∧
    (adjustHousekeepingInterval 1 (.ok [statsSampleA, statsSampleB])
        ⟨5, 8, true⟩).1.housekeepingInterval = 1 :=
  ⟨(adjustHousekeepingInterval_backoff_reset 1 8 (by decide)).1 _ (by decide),
   (adjustHousekeepingInterval_backoff_reset 1 8 (by decide)).2 5
      statsSampleA statsSampleB [] (by decide)⟩

theorem processLine_wellFormed (name cadvisorContainer : String)
    (inHostNamespace : Bool) (line : String)
    (h : wellFormedLine line = true) :
    processLine name cadvisorContainer inHostNamespace line =
      .ok (if specRowSelected name cadvisorContainer inHostNamespace line
           then some (specRowEntry name line) else none) := by
  by_cases hline : line = ""
  · subst hline
    simp [processLine, specRowSelected]
  · have hne : (line == "") = false := by
      rw [beq_eq_false_iff_ne]; exact hline
    simp only [wellFormedLine, hne, Bool.false_or, Bool.and_eq_true,
      decide_eq_true_eq, Option.isSome_iff_exists] at h
    obtain ⟨⟨⟨⟨⟨⟨hlen, ⟨pid, hpid⟩⟩, ⟨ppid, hppid⟩⟩, ⟨pc, hpc⟩⟩, ⟨pm, hpm⟩⟩,
      ⟨rss, hrss⟩⟩, ⟨vs, hvs⟩⟩ := h
    rw [processLine]
    simp only [if_neg hline, if_neg (by omega : ¬ (Fields line).length < 12),
      hpid, hppid, hpc, hpm, hrss, hvs]
    by_cases hskip : ¬ inHostNamespace = true ∧
        cadvisorContainer = getCgroupPath ((Fields line).getD 11 "") ∧
        (Fields line).getD 10 "" = "ps"
    · have hselF : specRowSelected name cadvisorContainer inHostNamespace line
          = false := by
        obtain ⟨h1, h2, h3⟩ := hskip
        have h1' : inHostNamespace = false := Bool.eq_false_iff.mpr h1
        have hS : (!inHostNamespace &&
            (cadvisorContainer == getCgroupPath ((Fields line).getD 11 "")) &&
            ((Fields line).getD 10 "" == "ps")) = true := by
          rw [Bool.and_eq_true, Bool.and_eq_true]
          exact ⟨⟨by rw [h1']; rfl, beq_iff_eq.mpr h2⟩, beq_iff_eq.mpr h3⟩
        simp only [specRowSelected]
        rw [hS]
        simp
      rw [if_pos hskip, hselF]
      rfl
    · have hbool : (!inHostNamespace &&
          (cadvisorContainer == getCgroupPath ((Fields line).getD 11 "")) &&
          ((Fields line).getD 10 "" == "ps")) = false := by
        rw [Bool.eq_false_iff]
        intro hB
        apply hskip
        simp only [Bool.and_eq_true, Bool.not_eq_true', beq_iff_eq] at hB
        exact ⟨by simp [hB.1.1], hB.1.2, hB.2⟩
      rw [if_neg hskip]
      by_cases hsel : name = "/" ∨ name = getCgroupPath ((Fields line).getD 11 "")
      · have hselT : specRowSelected name cadvisorContainer inHostNamespace line
            = true := by
          rw [specRowSelected]
          simp only [hbool]
          rcases hsel with hs | hs <;>
            simp [hline, hs]
        rw [if_pos hsel, hselT, if_pos rfl]
        rw [specRowEntry]
        simp only [hpid, hppid, hpc, hpm, hrss, hvs, Option.getD_some]
        rw [Nat.mul_comm rss 1024, Nat.mul_comm vs 1024]
      · have hselF : specRowSelected name cadvisorContainer inHostNamespace line
            = false := by
          push_neg at hsel
          have hs1 : (name == "/") = false := by
            rw [beq_eq_false_iff_ne]; exact hsel.1
          have hs2 : (name == getCgroupPath ((Fields line).getD 11 "")) = false := by
            rw [beq_eq_false_iff_ne]; exact hsel.2
          simp only [specRowSelected]
          rw [hs1, hs2]
          simp
        rw [if_neg hsel, hselF]
        rfl

theorem collectRows_wellFormed (name cadvisorContainer : String)
    (inHostNamespace : Bool) (ls : List String)
    (h : ls.all wellFormedLine = true) :
    collectRows name cadvisorContainer inHostNamespace ls =
      .ok ((ls.filter (specRowSelected name cadvisorContainer inHostNamespace)).map
        (specRowEntry name)) := by
  induction ls with
  | nil => rfl
  | cons l ls ih =>
    rw [List.all_cons, Bool.and_eq_true] at h
    obtain ⟨h1, h2⟩ := h
    rw [collectRows, processLine_wellFormed name cadvisorContainer inHostNamespace l h1,
      ih h2]
    by_cases hsel : specRowSelected name cadvisorContainer inHostNamespace l = true
    · rw [if_pos hsel, List.filter_cons_of_pos hsel, List.map_cons]
    · rw [if_neg hsel, List.filter_cons_of_neg hsel]

/-- C8: on well-formed `ps` output (header plus body lines of at least 12
whitespace-separated fields whose numeric columns parse), `GetProcessList`
succeeds and returns exactly the body rows selected by the claim's policy
— every row when the tracker name is "/", otherwise the rows whose parsed
cgroup equals the tracker name, minus the agent's own `ps` row when
running inside the agent's container — each mapped to an entry whose RSS
and VSZ are multiplied by 1024 (KiB to bytes) and whose cgroup path is
populated only for the root tracker. -/
theorem getProcessList_filters_rows (name cadvisorContainer : String)
    (inHostNamespace : Bool) (out : String)
    (h : wellFormedPsOutput out = true) :
    GetProcessList name cadvisorContainer inHostNamespace out =
      .ok (((((splitOnNewline out.data).map fun l => String.mk l).drop 1).filter
          (specRowSelected name cadvisorContainer inHostNamespace)).map
        (specRowEntry name)) :=
  collectRows_wellFormed name cadvisorContainer inHostNamespace _ h

/-- A concrete `ps` capture: a header and three body rows from two
different cgroups (the devices cgroup of the first row is "/", of the
second and third "/docker/abc"). -/
def psOut : String :=
  "USER PID PPID STIME CPU MEM RSS VSZ STAT TIME COMMAND CGROUP\nroot 1 0 Jan01 0.0 0.1 100 200 Ss 00:00:01 init 5:devices:/,4:cpu:/\nroot 7 1 Jan02 1.5 2.0 1024 2048 S 00:00:02 nginx 5:devices:/docker/abc,4:cpu:/docker/abc\nroot 9 7 Jan02 0.2 0.3 64 128 S 00:00:03 worker 5:devices:/docker/abc,4:cpu:/docker/abc\n"

set_option maxRecDepth 100000 in
/-- Witness for C8 at the concrete capture, for the non-root tracker
`/docker/abc` observed from the host namespace. -/
theorem getProcessList_filters_rows_witness :
    wellFormedPsOutput psOut = true ∧
    GetProcessList "/docker/abc" "/agent" true psOut =
      .ok (((((splitOnNewline psOut.data).map fun l => String.mk l).drop 1).filter
          (specRowSelected "/docker/abc" "/agent" true)).map
        (specRowEntry "/docker/abc")) :=
  ⟨by decide, getProcessList_filters_rows "/docker/abc" "/agent" true psOut (by decide)⟩

end Cadvisor
